import Mathlib

set_option autoImplicit false

namespace AutiConnect

/-! Shallow embedding of the AutiConnect bot (`main.py`): the in-memory
`Database` (a placeholder MongoDB stand-in built on Python dicts), and the
conversation handlers that drive the multi-step dialogs.  Python dicts are
modelled as insertion-ordered association lists; `d[k] = v` updates the
first entry with key `k` in place or appends a fresh entry.  The
`created_at` / `last_active` / `scheduled_time` timestamp fields
(`datetime.now()` calls) are nondeterministic wall-clock reads that no
claim depends on, so they are omitted from the records; the time-derived
identifiers (`group_id`, `activity_id`) are taken as explicit parameters.
Message sends (`reply_text` / `edit_message_text`) are I/O with no effect
on bot state and are not modelled. -/

/-- Lookup in an association list (Python `d.get(k)` / `d[k]`): first entry
whose key matches. -/
def lookupA {κ α : Type} [DecidableEq κ] : List (κ × α) → κ → Option α
  | [], _ => none
  | (k, v) :: t, k0 => if k = k0 then some v else lookupA t k0

/-- Update in an association list (Python `d[k] = v`): replace the first
entry with key `k`, or append a fresh entry when the key is absent. -/
def setA {κ α : Type} [DecidableEq κ] : List (κ × α) → κ → α → List (κ × α)
  | [], k, v => [(k, v)]
  | (k1, v1) :: t, k, v => if k1 = k then (k, v) :: t else (k1, v1) :: setA t k v

/-- Values stored in a user's `profile` dict.  The Python dict is
heterogeneous: ints, strings, lists of strings, `None`, and one nested dict
(`communication_preferences`). -/
inductive PVal where
  | vInt : Int → PVal
  | vStr : String → PVal
  | vStrList : List String → PVal
  | vNone : PVal
  | vMap : List (String × PVal) → PVal

/-- A user record, as built by `Database.create_user`. -/
structure UserRec where
  user_id : Int
  name : String
  role : String
  groups : List Int
  profile : Option (List (String × PVal))

/-- A group record, as built by `Database.create_group`. -/
structure GroupRec where
  group_id : Int
  name : String
  theme : String
  description : String
  created_by : Int
  members : List Int
  max_members : Int
  ai_mediator_enabled : Bool

/-- An activity record, as built by `Database.create_activity`. -/
structure ActivityRec where
  activity_id : String
  group_id : Int
  type : String
  title : String
  description : String
  created_by : Int
  participants : List Int
  status : String
  duration : Int
  ai_guidance_enabled : Bool

/-- The in-memory store: `self.users`, `self.groups`, `self.activities`,
`self.messages` from `Database.__init__`. -/
structure Database where
  users : List (Int × UserRec)
  groups : List (Int × GroupRec)
  activities : List (String × ActivityRec)
  messages : List String

/-- The freshly initialised store (all dicts empty). -/
def Database.empty : Database := ⟨[], [], [], []⟩

/-- Default `communication_preferences` sub-dict used by `create_user` for
role `autista` when no keyword override is given. -/
def defaultCommPrefs : List (String × PVal) :=
  [("style", PVal.vStr "direct"),
   ("preferred_topics", PVal.vStrList []),
   ("avoided_topics", PVal.vStrList []),
   ("notes", PVal.vStr "")]

/-- Default expanded profile built by `create_user` for role `autista` with
no keyword arguments, which is how its only caller (`process_role`) invokes
it. -/
def defaultAutistaProfile : List (String × PVal) :=
  [("age", PVal.vNone),
   ("gender", PVal.vNone),
   ("emergency_contacts", PVal.vStrList []),
   ("academic_history", PVal.vStr ""),
   ("professionals", PVal.vStrList []),
   ("interests", PVal.vStrList []),
   ("anxiety_triggers", PVal.vStrList []),
   ("communication_preferences", PVal.vMap defaultCommPrefs),
   ("interaction_history", PVal.vStrList [])]

/-- Embedding of `Database.create_user` (no keyword arguments, matching its
call site).  Note the source performs no existence check: `self.users[user_id]
= user_data` stores unconditionally and the function returns `True` unless an
exception occurs (none can in this pure fragment). -/
def Database.create_user (db : Database) (user_id : Int) (name role : String) :
    Database × Bool :=
  let user_data : UserRec :=
    { user_id := user_id, name := name, role := role, groups := []
      profile := if role = "autista" then some defaultAutistaProfile else none }
  ({ db with users := setA db.users user_id user_data }, true)

/-- Embedding of `Database.update_user_profile`: fails when the user is
absent, otherwise merges the given fields into the (possibly missing, then
freshly created) profile dict key by key. -/
def Database.update_user_profile (db : Database) (user_id : Int)
    (profile_data : List (String × PVal)) : Database × Bool :=
  match lookupA db.users user_id with
  | none => (db, false)
  | some u =>
    let prof0 := match u.profile with
      | none => []
      | some p => p
    let prof1 := profile_data.foldl (fun acc kv => setA acc kv.1 kv.2) prof0
    ({ db with users := setA db.users user_id { u with profile := some prof1 } }, true)

/-- Embedding of `Database.get_user`: `self.users.get(user_id)`. -/
def Database.get_user (db : Database) (user_id : Int) : Option UserRec :=
  lookupA db.users user_id

/-- Embedding of `Database.create_group`.  The group is stored
unconditionally (creator as sole initial member); the group id is appended
to the creator's `groups` list only when the creator exists in `self.users`;
the function returns `True` in every non-raising run. -/
def Database.create_group (db : Database) (group_id : Int)
    (name theme description : String) (created_by : Int) (max_members : Int) :
    Database × Bool :=
  let group_data : GroupRec :=
    { group_id := group_id, name := name, theme := theme
      description := description, created_by := created_by
      members := [created_by], max_members := max_members
      ai_mediator_enabled := true }
  let db1 : Database := { db with groups := setA db.groups group_id group_data }
  let db2 : Database :=
    match lookupA db1.users created_by with
    | some u =>
      { db1 with users := setA db1.users created_by { u with groups := u.groups ++ [group_id] } }
    | none => db1
  (db2, true)

/-- Embedding of `Database.get_all_groups`: `list(self.groups.values())`. -/
def Database.get_all_groups (db : Database) : List GroupRec :=
  db.groups.map (fun p => p.2)

/-- Embedding of `Database.get_group`: `self.groups.get(group_id)`. -/
def Database.get_group (db : Database) (group_id : Int) : Option GroupRec :=
  lookupA db.groups group_id

/-- Embedding of `Database.add_user_to_group`: fails when group or user is
absent; otherwise appends the user to the group's `members` unless already
present, appends the group to the user's `groups` unless already present,
and returns `True`.  The source performs no capacity check against
`max_members`. -/
def Database.add_user_to_group (db : Database) (user_id group_id : Int) :
    Database × Bool :=
  match lookupA db.groups group_id, lookupA db.users user_id with
  | some g, some u =>
    let g1 := if user_id ∈ g.members then g else { g with members := g.members ++ [user_id] }
    let db1 : Database := { db with groups := setA db.groups group_id g1 }
    let u1 := if group_id ∈ u.groups then u else { u with groups := u.groups ++ [group_id] }
    let db2 : Database := { db1 with users := setA db1.users user_id u1 }
    (db2, true)
  | _, _ => (db, false)

/-- Embedding of `Database.create_activity`.  The time-derived
`activity_id` (`str(datetime.now().timestamp())`) is a parameter; the
record is stored unconditionally with `status = "scheduled"` and empty
participant list, and the id is returned. -/
def Database.create_activity (db : Database) (activity_id : String)
    (group_id : Int) (activity_type title description : String)
    (created_by : Int) (duration : Int) : Database × Option String :=
  let activity_data : ActivityRec :=
    { activity_id := activity_id, group_id := group_id, type := activity_type
      title := title, description := description, created_by := created_by
      participants := [], status := "scheduled", duration := duration
      ai_guidance_enabled := true }
  ({ db with activities := setA db.activities activity_id activity_data }, some activity_id)

/-- Embedding of `Database.get_user_activities`: empty list for an absent
user; otherwise the loop over `self.activities.items()` appending every
activity whose group is among the user's groups and whose status is
`scheduled`. -/
def Database.get_user_activities (db : Database) (user_id : Int) :
    List ActivityRec :=
  match lookupA db.users user_id with
  | none => []
  | some u =>
    db.activities.foldl
      (fun acc p =>
        if p.2.group_id ∈ u.groups ∧ p.2.status = "scheduled" then acc ++ [p.2] else acc)
      []

/-! Conversation layer.  The constants below are the `range(19)` tuple of
conversation states in the source; `CONV_END` is `ConversationHandler.END`,
which python-telegram-bot defines as `-1`.  `context.user_data` is a
heterogeneous per-user dict; the handlers modelled here store ints, strings
and lists of strings in it. -/

def REGISTER_NAME : Int := 0
def REGISTER_ROLE : Int := 1
def PROFILE_AGE : Int := 2
def PROFILE_GENDER : Int := 3
def PROFILE_CONTACTS : Int := 4
def PROFILE_ACADEMIC : Int := 5
def PROFILE_PROFESSIONALS : Int := 6
def PROFILE_INTERESTS : Int := 7
def PROFILE_TRIGGERS : Int := 8
def PROFILE_COMMUNICATION : Int := 9
def GROUP_NAME : Int := 10
def GROUP_THEME : Int := 11
def GROUP_DESC : Int := 12
def GROUP_MAX : Int := 13
def ACTIVITY_GROUP : Int := 14
def ACTIVITY_TYPE : Int := 15
def ACTIVITY_TITLE : Int := 16
def ACTIVITY_DESC : Int := 17
def ACTIVITY_DURATION : Int := 18
def CONV_END : Int := -1

/-- Values the modelled handlers store in `context.user_data`. -/
inductive UVal where
  | uInt : Int → UVal
  | uStr : String → UVal
  | uStrList : List String → UVal
deriving DecidableEq

/-- The per-user `context.user_data` dict. -/
def UserData := List (String × UVal)

/-- Read a string value out of `context.user_data` (Python
`context.user_data[k]`).  The handlers only read keys that earlier steps of
the same dialog have stored as strings; the empty-string default stands for
the `KeyError` path that no modelled flow reaches. -/
def getStrD (ud : UserData) (k : String) : String :=
  match lookupA ud k with
  | some (UVal.uStr s) => s
  | _ => ""

/-- Read an int value out of `context.user_data`, same conventions as
`getStrD`. -/
def getIntD (ud : UserData) (k : String) : Int :=
  match lookupA ud k with
  | some (UVal.uInt n) => n
  | _ => 0

/-- Helper: the decimal value of a digit run, or `none` when some character
is not an ASCII digit. -/
def digitsVal : List Char → Nat → Option Nat
  | [], acc => some acc
  | c :: cs, acc =>
    if c.isDigit then digitsVal cs (acc * 10 + (c.toNat - 48)) else none

/-- Helper: strip leading and trailing whitespace from a character list. -/
def trimChars (cs : List Char) : List Char :=
  ((cs.dropWhile Char.isWhitespace).reverse.dropWhile Char.isWhitespace).reverse

/-- Model of Python `int(text)`: optional surrounding whitespace, optional
sign, then a nonempty run of ASCII digits; anything else raises
`ValueError`, modelled as `none`.  (Python also accepts underscore digit
separators and non-ASCII digits; no claim depends on those.) -/
def pyInt (s : String) : Option Int :=
  match trimChars s.data with
  | [] => none
  | '+' :: cs =>
    match cs with
    | [] => none
    | _ => (digitsVal cs 0).map Int.ofNat
  | '-' :: cs =>
    match cs with
    | [] => none
    | _ => (digitsVal cs 0).map (fun n => -(n : Int))
  | cs => (digitsVal cs 0).map Int.ofNat

/-- Embedding of `process_profile_age`: parse the message text as an int;
on `ValueError` or a value outside 5..100 re-prompt (state `PROFILE_AGE`)
without touching `user_data`; otherwise store the age under `profile_age`
and move to `PROFILE_GENDER`. -/
def process_profile_age (text : String) (ud : UserData) : UserData × Int :=
  match pyInt text with
  | none => (ud, PROFILE_AGE)
  | some age =>
    if age < 5 ∨ age > 100 then (ud, PROFILE_AGE)
    else (setA ud "profile_age" (UVal.uInt age), PROFILE_GENDER)

/-- Continuation of `process_role` after the `db.create_user` commit: on
success an `autista` moves into the profile dialog at `PROFILE_AGE` and any
other role ends the conversation; on failure the handler apologises and
ends the conversation. -/
def process_role_on_commit (success : Bool) (role : String) : Int :=
  if success then
    if role = "autista" then PROFILE_AGE else CONV_END
  else CONV_END

/-- Embedding of `process_role`: record the chosen role (the callback
data), commit `create_user` with the name collected at the previous step,
and continue as `process_role_on_commit` describes. -/
def process_role (query_data : String) (user_id : Int) (ud : UserData)
    (db : Database) : UserData × Database × Int :=
  let role := query_data
  let ud1 := setA ud "role" (UVal.uStr role)
  let name := getStrD ud1 "name"
  let r := db.create_user user_id name role
  (ud1, r.1, process_role_on_commit r.2 role)

/-- The `profile_data` dict that `process_profile_communication` assembles
from `context.user_data` (`.get` with `None`, `[]`, or string defaults). -/
def mkProfileData (ud : UserData) : List (String × PVal) :=
  [("age",
      match lookupA ud "profile_age" with
      | some (UVal.uInt n) => PVal.vInt n
      | _ => PVal.vNone),
   ("gender",
      match lookupA ud "profile_gender" with
      | some (UVal.uStr s) => PVal.vStr s
      | _ => PVal.vNone),
   ("emergency_contacts",
      match lookupA ud "profile_contacts" with
      | some (UVal.uStrList l) => PVal.vStrList l
      | _ => PVal.vStrList []),
   ("academic_history",
      match lookupA ud "profile_academic" with
      | some (UVal.uStr s) => PVal.vStr s
      | _ => PVal.vStr ""),
   ("professionals",
      match lookupA ud "profile_professionals" with
      | some (UVal.uStrList l) => PVal.vStrList l
      | _ => PVal.vStrList []),
   ("interests",
      match lookupA ud "profile_interests" with
      | some (UVal.uStrList l) => PVal.vStrList l
      | _ => PVal.vStrList []),
   ("anxiety_triggers",
      match lookupA ud "profile_triggers" with
      | some (UVal.uStrList l) => PVal.vStrList l
      | _ => PVal.vStrList []),
   ("communication_preferences",
      PVal.vMap [("style",
        match lookupA ud "profile_communication" with
        | some (UVal.uStr s) => PVal.vStr s
        | _ => PVal.vStr "direta")])]

/-- Continuation of `process_profile_communication` after the
`db.update_user_profile` commit: both the success and the failure branch
only choose a reply text, then fall through to `return
ConversationHandler.END`. -/
def process_profile_communication_on_commit (_success : Bool) : Int := CONV_END

/-- Embedding of `process_profile_communication`: record the chosen style
(the callback data), commit `update_user_profile` with the accumulated
profile fields, and end the conversation whatever the commit outcome. -/
def process_profile_communication (query_data : String) (user_id : Int)
    (ud : UserData) (db : Database) : UserData × Database × Int :=
  let ud1 := setA ud "profile_communication" (UVal.uStr query_data)
  let profile_data := mkProfileData ud1
  let r := db.update_user_profile user_id profile_data
  (ud1, r.1, process_profile_communication_on_commit r.2)

/-- Embedding of `create_group_start`: an unregistered user, and a
registered user whose role is not `at`, are rejected and the conversation
ends (no session is created); otherwise the dialog starts at `GROUP_NAME`.
The handler does not touch `context.user_data`. -/
def create_group_start (user_id : Int) (db : Database) : Int :=
  match db.get_user user_id with
  | none => CONV_END
  | some user => if user.role ≠ "at" then CONV_END else GROUP_NAME

/-- Continuation of `process_group_max` after the `db.create_group` commit:
both branches only choose a reply text, then fall through to `return
ConversationHandler.END`. -/
def process_group_max_on_commit (_success : Bool) : Int := CONV_END

/-- Embedding of `process_group_max`: parse the message text as an int; on
`ValueError` or a value outside 2..50 re-prompt (state `GROUP_MAX`) without
touching `user_data` or the store; otherwise store `group_max`, commit
`create_group` with the accumulated name, theme and description under a
fresh time-derived id (parameter `group_id`), and end the conversation
whatever the commit outcome. -/
def process_group_max (text : String) (group_id : Int) (user_id : Int)
    (ud : UserData) (db : Database) : UserData × Database × Int :=
  match pyInt text with
  | none => (ud, db, GROUP_MAX)
  | some max_members =>
    if max_members < 2 ∨ max_members > 50 then (ud, db, GROUP_MAX)
    else
      let ud1 := setA ud "group_max" (UVal.uInt max_members)
      let r := db.create_group group_id (getStrD ud1 "group_name")
        (getStrD ud1 "group_theme") (getStrD ud1 "group_desc") user_id max_members
      (ud1, r.1, process_group_max_on_commit r.2)

/-- Embedding of `process_activity_duration`: parse the message text as an
int; on `ValueError` or a value outside 5..180 re-prompt (state
`ACTIVITY_DURATION`) without touching `user_data` or the store; otherwise
store `activity_duration`, commit `create_activity` under a fresh
time-derived id (parameter `activity_id`), and end the conversation. -/
def process_activity_duration (text : String) (activity_id : String)
    (user_id : Int) (ud : UserData) (db : Database) : UserData × Database × Int :=
  match pyInt text with
  | none => (ud, db, ACTIVITY_DURATION)
  | some duration =>
    if duration < 5 ∨ duration > 180 then (ud, db, ACTIVITY_DURATION)
    else
      let ud1 := setA ud "activity_duration" (UVal.uInt duration)
      let r := db.create_activity activity_id (getIntD ud1 "activity_group_id")
        (getStrD ud1 "activity_type") (getStrD ud1 "activity_title")
        (getStrD ud1 "activity_desc") user_id duration
      (ud1, r.1, CONV_END)

/-! Concrete stores used by the claim theorems and witnesses, each built
purely by `Database` operations from the empty store. -/

/-- Store for the capacity scenario: facilitator 1 and participants 2 and 3
registered, group 100 created by 1 with `max_members = 2`, and participant
2 already joined, so the membership list `[1, 2]` is at capacity. -/
def c1_store : Database :=
  (((((Database.empty.create_user 1 "F" "at").1.create_user 2 "A" "autista").1.create_user
    3 "B" "autista").1.create_group 100 "G" "tema" "descricao" 1 2).1.add_user_to_group
    2 100).1

/-- Store holding user 1 (`Ana`, role `at`) who created group 100, so her
membership list is `[100]`. -/
def c2_store : Database :=
  ((Database.empty.create_user 1 "Ana" "at").1.create_group 100 "G" "tema" "descricao" 1 10).1

/-- Store in which group 100 was created by the then-unregistered user 7
(so the group's member list is `[7]` but no user record was updated), after
which user 7 registered (so her `groups` list is `[]`). -/
def c3_store : Database :=
  ((Database.empty.create_group 100 "G" "tema" "descricao" 7 10).1.create_user 7 "Carla" "at").1

/-- Consistent store for the idempotency witness: user 7 registered first,
then created group 100, so `members = [7]` and her `groups = [100]`. -/
def c3_w_store : Database :=
  ((Database.empty.create_user 7 "Carla" "at").1.create_group 100 "G" "tema" "descricao" 7 10).1

/-- User record of 7 in `c3_w_store`. -/
def c3_w_user : UserRec :=
  { user_id := 7, name := "Carla", role := "at", groups := [100], profile := none }

/-- Group record of 100 in `c3_w_store`. -/
def c3_w_group : GroupRec :=
  { group_id := 100, name := "G", theme := "tema", description := "descricao"
    created_by := 7, members := [7], max_members := 10, ai_mediator_enabled := true }

/-- Store holding only user 7 (`Carla`, role `at`), used by the group
creation witness. -/
def c4_w_store : Database :=
  (Database.empty.create_user 7 "Carla" "at").1

/-- Store with an unrelated registered user 5 of role `autista`, used by
the role-gate witness. -/
def c7_w_store : Database :=
  (Database.empty.create_user 5 "Pedro" "autista").1

/-- Store for the activity-listing witness: user 7 registered and owns
group 100; activity `a1` is scheduled for group 100 and activity `a2` for
the unrelated group 200. -/
def c10_w_store : Database :=
  ((((Database.empty.create_user 7 "Ana" "autista").1.create_group
      100 "G" "tema" "descricao" 7 10).1.create_activity
      "a1" 100 "discussao" "T1" "D1" 7 60).1.create_activity
      "a2" 200 "jogo" "T2" "D2" 7 30).1

/-- User record of 7 in `c10_w_store`. -/
def c10_w_user : UserRec :=
  { user_id := 7, name := "Ana", role := "autista", groups := [100]
    profile := some defaultAutistaProfile }

/-- Activity record `a1` in `c10_w_store`. -/
def c10_w_act : ActivityRec :=
  { activity_id := "a1", group_id := 100, type := "discussao", title := "T1"
    description := "D1", created_by := 7, participants := [], status := "scheduled"
    duration := 60, ai_guidance_enabled := true }

/-- Session scratch after the registration name step: the name `Ana` has
been collected. -/
def c9_w_ud : UserData := [("name", UVal.uStr "Ana")]

/-! Helper lemmas about the association-list dict operations. -/

/-- Lookup after an update at the same key yields the stored value. -/
theorem lookupA_setA_self {κ α : Type} [DecidableEq κ] (l : List (κ × α)) (k : κ) (v : α) :
    lookupA (setA l k v) k = some v := by
  induction l with
  | nil => simp [setA, lookupA]
  | cons p t ih =>
    obtain ⟨k1, v1⟩ := p
    by_cases h : k1 = k
    · simp [setA, h, lookupA]
    · simp [setA, h, lookupA, ih]

/-- Storing the value a key already holds leaves the dict unchanged. -/
theorem setA_eq_of_lookupA {κ α : Type} [DecidableEq κ] {l : List (κ × α)} {k : κ} {v : α}
    (h : lookupA l k = some v) : setA l k v = l := by
  induction l with
  | nil => simp [lookupA] at h
  | cons p t ih =>
    obtain ⟨k1, v1⟩ := p
    by_cases hk : k1 = k
    · subst hk
      simp [lookupA] at h
      simp [setA, h]
    · simp [lookupA, hk] at h
      simp [setA, hk, ih h]

/-- The accumulate-by-append loop of `get_user_activities` computes a
filter over the dict's values. -/
theorem activities_loop_eq_filter (gs : List Int) :
    ∀ (l : List (String × ActivityRec)) (acc : List ActivityRec),
      l.foldl
        (fun acc p =>
          if p.2.group_id ∈ gs ∧ p.2.status = "scheduled" then acc ++ [p.2] else acc)
        acc
      = acc ++ (l.map (fun p => p.2)).filter
          (fun a => decide (a.group_id ∈ gs ∧ a.status = "scheduled")) := by
  intro l
  induction l with
  | nil => intro acc; simp
  | cons x t ih =>
    intro acc
    by_cases h : x.2.group_id ∈ gs ∧ x.2.status = "scheduled"
    · simp [List.foldl, h, ih]
    · simp [List.foldl, h, ih]

/-- Claim C1 (code bug evidence): in the spec's own capacity scenario the
store `c1_store` holds group 100 at capacity (`members = [1, 2]`,
`max_members = 2`), yet `add_user_to_group 3 100` returns success and
appends user 3, leaving a membership list of length 3 that exceeds the
bound — the code performs no capacity check, contradicting the claimed
capacity failure and invariant. -/
theorem c1_capacity_not_enforced :
    ((c1_store.get_group 100).map (fun g => g.members) = some [1, 2]
      ∧ (c1_store.get_group 100).map (fun g => g.max_members) = some 2)
    ∧ (c1_store.add_user_to_group 3 100).2 = true
    ∧ ((c1_store.add_user_to_group 3 100).1.get_group 100).map (fun g => g.members)
        = some [1, 2, 3] :=
  ⟨⟨rfl, rfl⟩, rfl, rfl⟩

/-- Claim C2 (code bug evidence): user 1 exists with role `at` and
membership list `[100]`, yet `create_user` with the same id returns
success and silently replaces the record — the role becomes `autista`, the
name becomes `Bob`, and the membership list is reset to `[]`, contradicting
the claimed already-exists failure and the role-immutability invariant. -/
theorem c2_create_user_overwrites :
    ((c2_store.get_user 1).map (fun u => u.role) = some "at"
      ∧ (c2_store.get_user 1).map (fun u => u.groups) = some [100])
    ∧ (c2_store.create_user 1 "Bob" "autista").2 = true
    ∧ ((c2_store.create_user 1 "Bob" "autista").1.get_user 1).map (fun u => u.role)
        = some "autista"
    ∧ ((c2_store.create_user 1 "Bob" "autista").1.get_user 1).map (fun u => u.groups)
        = some [] :=
  ⟨⟨rfl, rfl⟩, rfl, rfl, rfl⟩

/-- Claim C3 counterexample: in `c3_store` user 7 is already in group
100's membership list (`members = [7]`) but her own `groups` list is `[]`;
re-adding her succeeds and leaves the membership list unchanged, yet it
mutates her `groups` list from `[]` to `[100]`, refuting the claim that
the user's group list is left unchanged whenever the user is already a
member. -/
theorem c3_readd_mutates_user_groups :
    ((c3_store.get_group 100).map (fun g => g.members) = some [7]
      ∧ (c3_store.get_user 7).map (fun u => u.groups) = some [])
    ∧ (c3_store.add_user_to_group 7 100).2 = true
    ∧ ((c3_store.add_user_to_group 7 100).1.get_group 100).map (fun g => g.members)
        = some [7]
    ∧ ((c3_store.add_user_to_group 7 100).1.get_user 7).map (fun u => u.groups)
        = some [100] :=
  ⟨⟨rfl, rfl⟩, rfl, rfl, rfl⟩

/-- Claim C3 (amended): for a user and group both present in the store
with the user already in the group's membership list, `add_user_to_group`
succeeds and leaves the group table — hence the membership list — entirely
unchanged; and provided the group id is also already in the user's
`groups` list (which holds after any prior successful add), the whole
store is unchanged, so the operation is a no-op success. -/
theorem c3_amended_readd_member (db : Database) (uid gid : Int) (u : UserRec)
    (g : GroupRec) (hu : lookupA db.users uid = some u)
    (hg : lookupA db.groups gid = some g) (hm : uid ∈ g.members) :
    (db.add_user_to_group uid gid).2 = true
    ∧ (db.add_user_to_group uid gid).1.groups = db.groups
    ∧ (gid ∈ u.groups → db.add_user_to_group uid gid = (db, true)) := by
  unfold Database.add_user_to_group
  rw [hg, hu]
  refine ⟨rfl, ?_, ?_⟩
  · simp only [if_pos hm]
    exact setA_eq_of_lookupA hg
  · intro hgu
    simp only [if_pos hm, if_pos hgu]
    have h1 : setA db.groups gid g = db.groups := setA_eq_of_lookupA hg
    have h2 : setA db.users uid u = db.users := setA_eq_of_lookupA hu
    simp [h1, h2]

/-- Witness for the amended C3: in the consistent store `c3_w_store`
(user 7 created group 100, so both sides record the association),
re-adding user 7 to group 100 is a no-op success. -/
theorem c3_amended_readd_member_witness :
    c3_w_store.add_user_to_group 7 100 = (c3_w_store, true) :=
  (c3_amended_readd_member c3_w_store 7 100 c3_w_user c3_w_group rfl rfl
    (by decide)).2.2 (by decide)

/-- Claim C4 counterexample: `create_group` invoked on the empty store
with the absent creator 7 still returns success and stores the group (with
7 as member zero) while touching no user record at all — the two record
updates are not an all-or-nothing unit, and no group id is appended to any
creator membership list despite the reported success. -/
theorem c4_partial_commit_absent_creator :
    (Database.empty.create_group 100 "G" "tema" "descricao" 7 10).2 = true
    ∧ ((Database.empty.create_group 100 "G" "tema" "descricao" 7 10).1.get_group 100).map
        (fun g => g.members) = some [7]
    ∧ (Database.empty.create_group 100 "G" "tema" "descricao" 7 10).1.users = [] :=
  ⟨rfl, rfl, rfl⟩

/-- Claim C4 (amended): `create_group` always reports success and stores
the group with the creator as its sole initial member; when the creator
exists in the store, the same call also appends the group id to the
creator's membership list, so both records are updated together; when the
creator is absent, the group is still stored but the user table is left
untouched. -/
theorem c4_amended_create_group (db : Database) (gid : Int) (nm th ds : String)
    (creator mx : Int) :
    (db.create_group gid nm th ds creator mx).2 = true
    ∧ ((db.create_group gid nm th ds creator mx).1.get_group gid).map (fun g => g.members)
        = some [creator]
    ∧ (∀ u, lookupA db.users creator = some u →
        (db.create_group gid nm th ds creator mx).1.get_user creator
          = some { u with groups := u.groups ++ [gid] })
    ∧ (lookupA db.users creator = none →
        (db.create_group gid nm th ds creator mx).1.users = db.users) := by
  unfold Database.create_group Database.get_group Database.get_user
  cases h : lookupA db.users creator with
  | none =>
    refine ⟨rfl, ?_, ?_, ?_⟩
    · simp [h, lookupA_setA_self]
    · intro u hu
      exact Option.noConfusion hu
    · intro _
      simp [h]
  | some u0 =>
    refine ⟨rfl, ?_, ?_, ?_⟩
    · simp [h, lookupA_setA_self]
    · intro u hu
      injection hu with hu0
      subst hu0
      simp [h, lookupA_setA_self]
    · intro habs
      exact Option.noConfusion habs

/-- Witness for the amended C4: creating group 100 in `c4_w_store`
(creator 7 present) succeeds, stores members `[7]`, and appends 100 to
user 7's membership list in the same step. -/
theorem c4_amended_create_group_witness :
    (c4_w_store.create_group 100 "G" "tema" "descricao" 7 10).2 = true
    ∧ ((c4_w_store.create_group 100 "G" "tema" "descricao" 7 10).1.get_group 100).map
        (fun g => g.members) = some [7]
    ∧ ((c4_w_store.create_group 100 "G" "tema" "descricao" 7 10).1.get_user 7).map
        (fun u => u.groups) = some [100] := by
  have h := c4_amended_create_group c4_w_store 100 "G" "tema" "descricao" 7 10
  refine ⟨h.1, h.2.1, ?_⟩
  have h3 := h.2.2.1
    { user_id := 7, name := "Carla", role := "at", groups := [], profile := none } rfl
  rw [h3]
  rfl

/-- Claim C5: in each of the three validated dialog steps (profile age,
group max-members, activity duration), an input whose parse fails or whose
parsed value lies outside the step's range re-prompts the same step: the
returned state equals the step's own constant and neither `user_data` nor
the store is touched. -/
theorem c5_validation_reject_no_mutation (s1 s2 s3 : String) (ud : UserData)
    (db : Database) (gid uid : Int) (aid : String)
    (h1 : ∀ n : Int, pyInt s1 = some n → n < 5 ∨ n > 100)
    (h2 : ∀ n : Int, pyInt s2 = some n → n < 2 ∨ n > 50)
    (h3 : ∀ n : Int, pyInt s3 = some n → n < 5 ∨ n > 180) :
    process_profile_age s1 ud = (ud, PROFILE_AGE)
    ∧ process_group_max s2 gid uid ud db = (ud, db, GROUP_MAX)
    ∧ process_activity_duration s3 aid uid ud db = (ud, db, ACTIVITY_DURATION) := by
  refine ⟨?_, ?_, ?_⟩
  · unfold process_profile_age
    cases hp : pyInt s1 with
    | none => rfl
    | some n =>
      have hr := h1 n hp
      simp [hr]
  · unfold process_group_max
    cases hp : pyInt s2 with
    | none => rfl
    | some n =>
      have hr := h2 n hp
      simp [hr]
  · unfold process_activity_duration
    cases hp : pyInt s3 with
    | none => rfl
    | some n =>
      have hr := h3 n hp
      simp [hr]

/-- Witness for C5: the non-numeric input `abc` is rejected by all three
steps with state and data unchanged. -/
theorem c5_validation_reject_no_mutation_witness :
    process_profile_age "abc" [] = ([], PROFILE_AGE)
    ∧ process_group_max "abc" 0 0 [] Database.empty = ([], Database.empty, GROUP_MAX)
    ∧ process_activity_duration "abc" "t" 0 [] Database.empty
        = ([], Database.empty, ACTIVITY_DURATION) :=
  c5_validation_reject_no_mutation "abc" "abc" "abc" [] Database.empty 0 0 "t"
    (by intro n h; rw [show pyInt "abc" = none from rfl] at h; exact Option.noConfusion h)
    (by intro n h; rw [show pyInt "abc" = none from rfl] at h; exact Option.noConfusion h)
    (by intro n h; rw [show pyInt "abc" = none from rfl] at h; exact Option.noConfusion h)

/-- Claim C6: in the profile age step, the non-numeric input `abc` and the
out-of-range input `200` each return `PROFILE_AGE` again with `user_data`
untouched, while any input parsing to an integer between 5 and 100 stores
it under `profile_age` and advances to `PROFILE_GENDER`. -/
theorem c6_profile_age_step (ud : UserData) (s : String) (n : Int) :
    process_profile_age "abc" ud = (ud, PROFILE_AGE)
    ∧ process_profile_age "200" ud = (ud, PROFILE_AGE)
    ∧ (pyInt s = some n → 5 ≤ n → n ≤ 100 →
        process_profile_age s ud = (setA ud "profile_age" (UVal.uInt n), PROFILE_GENDER)) := by
  refine ⟨?_, ?_, ?_⟩
  · unfold process_profile_age
    rw [show pyInt "abc" = none from rfl]
  · unfold process_profile_age
    rw [show pyInt "200" = some 200 from rfl]
    norm_num
  · intro hp h5 h100
    unfold process_profile_age
    rw [hp]
    have hr : ¬(n < 5 ∨ n > 100) := by omega
    simp [hr]

/-- Witness for C6: the scenario `abc`, `200`, `30` — two re-prompts, then
the age 30 is stored and the dialog advances to the gender step. -/
theorem c6_profile_age_step_witness :
    process_profile_age "abc" [] = ([], PROFILE_AGE)
    ∧ process_profile_age "200" [] = ([], PROFILE_AGE)
    ∧ process_profile_age "30" [] = ([("profile_age", UVal.uInt 30)], PROFILE_GENDER) :=
  ⟨(c6_profile_age_step [] "30" 30).1,
   (c6_profile_age_step [] "30" 30).2.1,
   (c6_profile_age_step [] "30" 30).2.2 rfl (by norm_num) (by norm_num)⟩

/-- Claim C7: the create-group entry handler rejects an unregistered user
and a registered user whose role is not `at`, returning the dialog-end
state in both cases, so no group-creation session begins (the handler
never touches `user_data`, as its embedding's signature shows). -/
theorem c7_create_group_role_gate (uid : Int) (db : Database) :
    (db.get_user uid = none → create_group_start uid db = CONV_END)
    ∧ (∀ u, db.get_user uid = some u → u.role ≠ "at" →
        create_group_start uid db = CONV_END) := by
  constructor
  · intro h
    unfold create_group_start
    rw [h]
  · intro u h hr
    unfold create_group_start
    rw [h]
    simp [hr]

/-- Witness for C7: an unregistered user on the empty store, and the
registered participant 5 of role `autista`, are both rejected with the end
state. -/
theorem c7_create_group_role_gate_witness :
    create_group_start 1 Database.empty = CONV_END
    ∧ create_group_start 5 c7_w_store = CONV_END :=
  ⟨(c7_create_group_role_gate 1 Database.empty).1 rfl,
   (c7_create_group_role_gate 5 c7_w_store).2
     { user_id := 5, name := "Pedro", role := "autista", groups := []
       profile := some defaultAutistaProfile }
     rfl (by decide)⟩

/-- Claim C8: when the store commit of a completed dialog fails, every
final-step handler still returns the dialog-end state: the post-commit
continuations of `process_role`, `process_profile_communication` and
`process_group_max` all yield `CONV_END` on failure, and concretely a
profile commit for a user id absent from the store fails, leaves the store
untouched, and ends the conversation. -/
theorem c8_commit_failure_ends_dialog (r : String) (uid : Int) (comm : String)
    (ud : UserData) (db : Database) (habs : lookupA db.users uid = none) :
    process_role_on_commit false r = CONV_END
    ∧ process_profile_communication_on_commit false = CONV_END
    ∧ process_group_max_on_commit false = CONV_END
    ∧ process_profile_communication comm uid ud db
        = (setA ud "profile_communication" (UVal.uStr comm), db, CONV_END) := by
  refine ⟨rfl, rfl, rfl, ?_⟩
  unfold process_profile_communication Database.update_user_profile
  rw [habs]
  rfl

/-- Witness for C8: on the empty store the profile-communication commit
for user 1 fails, the store is unchanged, and the dialog ends. -/
theorem c8_commit_failure_ends_dialog_witness :
    process_profile_communication "direta" 1 [] Database.empty
      = ([("profile_communication", UVal.uStr "direta")], Database.empty, CONV_END) :=
  (c8_commit_failure_ends_dialog "at" 1 "direta" [] Database.empty rfl).2.2.2

/-- Claim C9: the role step commits the user to the store (the record is
retrievable afterwards with the collected name, the chosen role, an empty
group list, and the default profile exactly for role `autista`), then
branches: role `autista` continues into the profile dialog at
`PROFILE_AGE`, any other role ends the conversation. -/
theorem c9_role_step_branches (role : String) (uid : Int) (ud : UserData)
    (db : Database) :
    (role = "autista" → (process_role role uid ud db).2.2 = PROFILE_AGE)
    ∧ (role ≠ "autista" → (process_role role uid ud db).2.2 = CONV_END)
    ∧ (process_role role uid ud db).2.1.get_user uid
        = some { user_id := uid
                 name := getStrD (setA ud "role" (UVal.uStr role)) "name"
                 role := role, groups := []
                 profile := if role = "autista" then some defaultAutistaProfile else none } := by
  refine ⟨?_, ?_, ?_⟩
  · intro h
    simp [process_role, process_role_on_commit, Database.create_user, h]
  · intro h
    simp [process_role, process_role_on_commit, Database.create_user, h]
  · simp [process_role, Database.create_user, Database.get_user, lookupA_setA_self]

/-- Witness for C9: with the name `Ana` collected, choosing role `at`
commits the facilitator record and ends the dialog, while choosing role
`autista` moves to the age step. -/
theorem c9_role_step_branches_witness :
    (process_role "at" 1 c9_w_ud Database.empty).2.2 = CONV_END
    ∧ (process_role "autista" 2 c9_w_ud Database.empty).2.2 = PROFILE_AGE
    ∧ (process_role "at" 1 c9_w_ud Database.empty).2.1.get_user 1
        = some { user_id := 1, name := "Ana", role := "at", groups := [], profile := none } :=
  ⟨(c9_role_step_branches "at" 1 c9_w_ud Database.empty).2.1 (by decide),
   (c9_role_step_branches "autista" 2 c9_w_ud Database.empty).1 rfl,
   (c9_role_step_branches "at" 1 c9_w_ud Database.empty).2.2⟩

/-- Claim C10: `get_user_activities` is total; for an absent user it
returns the empty list, and for a present user it returns exactly the
stored activities (in storage order) whose group id lies in the user's
group list and whose status is `scheduled`. -/
theorem c10_user_activities (db : Database) (uid : Int) :
    (lookupA db.users uid = none → db.get_user_activities uid = [])
    ∧ (∀ u, lookupA db.users uid = some u →
        db.get_user_activities uid
          = (db.activities.map (fun p => p.2)).filter
              (fun a => decide (a.group_id ∈ u.groups ∧ a.status = "scheduled"))) := by
  constructor
  · intro h
    unfold Database.get_user_activities
    rw [h]
  · intro u h
    unfold Database.get_user_activities
    rw [h]
    simpa using activities_loop_eq_filter u.groups db.activities []

/-- Witness for C10: in `c10_w_store` the unregistered user 9 gets the
empty list, and user 7 gets exactly the scheduled activity of her group
100. -/
theorem c10_user_activities_witness :
    c10_w_store.get_user_activities 9 = []
    ∧ c10_w_store.get_user_activities 7 = [c10_w_act] :=
  ⟨(c10_user_activities c10_w_store 9).1 rfl,
   (c10_user_activities c10_w_store 7).2 c10_w_user rfl⟩

end AutiConnect
